import Mathlib

/-!
Shallow embedding of `src/fetch_patient_data.py` (RAPPORT patient-data
retrieval script) and verification of its specification claims.

The database is modelled as in-memory tables (lists of typed rows, list
order = physical scan order).  Driver values (`cx_Oracle` cell values) are
modelled by `Rapport.DBValue`; Python `datetime.datetime` by
`Rapport.PyDateTime`.  Fallible operations return `Except`; a raised Python
exception is `Except.error`.
-/

namespace Rapport

/-- Model of Python `datetime.datetime` as returned by cx_Oracle for Oracle
DATE / TIMESTAMP columns (microseconds omitted: Oracle DATE has second
granularity). -/
structure PyDateTime where
  year : Nat
  month : Nat
  day : Nat
  hour : Nat
  minute : Nat
  second : Nat
deriving DecidableEq

/-- Zero-pad a natural number to two digits (for ISO formatting). -/
def pad2 (n : Nat) : String :=
  if n < 10 then "0" ++ toString n else toString n

/-- Zero-pad a natural number to four digits (for ISO formatting). -/
def pad4 (n : Nat) : String :=
  if n < 10 then "000" ++ toString n
  else if n < 100 then "00" ++ toString n
  else if n < 1000 then "0" ++ toString n
  else toString n

/-- Python `datetime.isoformat()` for a second-granularity datetime:
`YYYY-MM-DDTHH:MM:SS`. -/
def PyDateTime.isoformat (d : PyDateTime) : String :=
  pad4 d.year ++ "-" ++ pad2 d.month ++ "-" ++ pad2 d.day ++ "T" ++
    pad2 d.hour ++ ":" ++ pad2 d.minute ++ ":" ++ pad2 d.second

/-- The six components of a datetime, most significant first. -/
def PyDateTime.fields (d : PyDateTime) : List Nat :=
  [d.year, d.month, d.day, d.hour, d.minute, d.second]

/-- Chronological order on datetimes: lexicographic on the components. -/
def dtLe (a b : PyDateTime) : Bool :=
  decide (a.fields ≤ b.fields)

/-- A cell value as produced by the cx_Oracle driver: NULL, a string, a
number, or a `datetime` (for DATE / TIMESTAMP columns). -/
inductive DBValue where
  | vNull : DBValue
  | vStr (s : String) : DBValue
  | vInt (n : Int) : DBValue
  | vDate (d : PyDateTime) : DBValue
deriving DecidableEq

/-- Whether a driver value is a native datetime object. -/
def DBValue.isDate : DBValue → Bool
  | .vDate _ => true
  | _ => false

/-- The per-value conversion performed by `_execute_query`
(fetch_patient_data.py lines 101-106): a `datetime` instance is replaced by
its `isoformat()` string, every other value is kept as is. -/
def convertValue : DBValue → DBValue
  | .vDate d => .vStr d.isoformat
  | v => v

/-- Constructor rank, used to compare values of different runtime types
(never needed on a well-typed column; fixed arbitrarily, NULLs last as in
Oracle ascending order). -/
def DBValue.rank : DBValue → Nat
  | .vInt _ => 0
  | .vStr _ => 1
  | .vDate _ => 2
  | .vNull => 3

/-- Oracle comparison of two column values of the same type (strings
binary-ordered, numbers numerically, dates chronologically); values of
distinct runtime types are ordered by constructor rank. -/
def dbLe : DBValue → DBValue → Bool
  | .vInt a, .vInt b => decide (a ≤ b)
  | .vStr a, .vStr b => decide (a ≤ b)
  | .vDate a, .vDate b => dtLe a b
  | a, b => decide (a.rank ≤ b.rank)

/-- A result row as built by `_execute_query`: the Python `row_dict`
mapping column alias to (converted) value, modelled as an association list
in column order. -/
def RowDict : Type := List (String × DBValue)

instance : DecidableEq RowDict :=
  inferInstanceAs (DecidableEq (List (String × DBValue)))

/-- The row-to-dict conversion loop of `_execute_query` (lines 99-107):
pair each column alias with the corresponding value, dates converted to ISO
strings. -/
def rowToDict (cols : List String) (vals : List DBValue) : RowDict :=
  cols.zip (vals.map convertValue)

/-! ### Connection manager (`RapportDBConnection`) -/

/-- Error raised by the cx_Oracle driver. -/
inductive DriverError where
  | interfaceError (msg : String) : DriverError
deriving DecidableEq

/-- Model of a live cx_Oracle connection object: only its open/closed state
matters here. -/
structure OracleConnection where
  isOpen : Bool
deriving DecidableEq

/-- Modelled cx_Oracle driver behavior: `Connection.close()` closes an open
connection and raises `InterfaceError: not connected` when the connection
is already closed. -/
def OracleConnection.close (c : OracleConnection) :
    Except DriverError OracleConnection :=
  if c.isOpen then .ok ⟨false⟩
  else .error (.interfaceError "not connected")

/-- State of a `RapportDBConnection` object (fetch_patient_data.py lines
22-65): credentials plus the `self.connection` attribute, `none` when the
attribute is Python `None` (as set by `__init__`). -/
structure RapportDBConnection where
  username : String
  password : String
  dsn : String
  connection : Option OracleConnection
deriving DecidableEq

/-- `RapportDBConnection.__init__`: stores the credentials and sets
`self.connection = None`. -/
def RapportDBConnection.init (username password dsn : String) :
    RapportDBConnection :=
  ⟨username, password, dsn, none⟩

/-- The state transition of a successful `connect()`: `self.connection` is
assigned the newly opened driver connection. -/
def RapportDBConnection.connectOk (s : RapportDBConnection) :
    RapportDBConnection :=
  { s with connection := some ⟨true⟩ }

/-- `RapportDBConnection.disconnect` (lines 52-56): when `self.connection`
is truthy (any connection object, open or closed — the attribute is never
reset to `None`), call the driver `close()`; otherwise do nothing. -/
def RapportDBConnection.disconnect (s : RapportDBConnection) :
    Except DriverError RapportDBConnection :=
  match s.connection with
  | none => .ok s
  | some c => do
      let c2 ← c.close
      .ok { s with connection := some c2 }

/-! ### Table rows and the database -/

/-- A row of `TTPT01` (patient basic info), restricted to the columns the
queries read.  `F007` (birth date), `F023` (registration timestamp) and
`UPDDT` (last-updated timestamp) are DATE columns and therefore carry
driver values; the other columns are character data. -/
structure TTPT01Row where
  F001 : String
  F002 : String
  F003 : String
  F004 : String
  F005 : String
  F006 : String
  F007 : DBValue
  F008 : String
  F010 : String
  F016 : String
  F017 : String
  F018 : String
  F019 : String
  F023 : DBValue
  UPDDT : DBValue
deriving DecidableEq

/-- A row of `TTPT02` (patient addresses). -/
structure TTPT02Row where
  F001 : String
  F002 : String
  F003 : String
  F004 : String
  F005 : String
  UPDDT : DBValue
deriving DecidableEq

/-- A row of `TTPT11` (patient insurance); `F008`/`F009` are the coverage
start/end dates. -/
structure TTPT11Row where
  F001 : String
  F002 : String
  F003 : String
  F004 : String
  F005 : String
  F006 : String
  F007 : String
  F008 : DBValue
  F009 : DBValue
  UPDDT : DBValue
deriving DecidableEq

/-- A row of `TTBY01` (patient diseases); `F006`/`F007` are the treatment
start/end dates. -/
structure TTBY01Row where
  F001 : String
  F002 : String
  F003 : String
  F004 : String
  F005 : String
  F006 : DBValue
  F007 : DBValue
  F008 : String
  UPDDT : DBValue
deriving DecidableEq

/-- The four tables read by the fetcher; list order models physical scan
order (the order in which the engine produces rows absent an ORDER BY). -/
structure RapportDB where
  TTPT01 : List TTPT01Row
  TTPT02 : List TTPT02Row
  TTPT11 : List TTPT11Row
  TTBY01 : List TTBY01Row
deriving DecidableEq

/-- Error raised while executing a query (`cx_Oracle.Error` surfaced by
`_execute_query`, e.g. an ORA- error from the engine). -/
inductive QueryError where
  | ora (code : Nat) (msg : String) : QueryError
deriving DecidableEq

/-- Whether an `Except` computation raised. -/
def isError {ε α : Type} : Except ε α → Bool
  | .error _ => true
  | .ok _ => false

/-! ### Ordering relations used by the ORDER BY clauses -/

/-- ORDER BY F001 (patient identifier ascending) on `TTPT01`. -/
def byPatientId (a b : TTPT01Row) : Prop := a.F001 ≤ b.F001

instance : DecidableRel byPatientId :=
  fun a b => inferInstanceAs (Decidable (a.F001 ≤ b.F001))

instance : IsTotal TTPT01Row byPatientId :=
  ⟨fun a b => le_total a.F001 b.F001⟩

instance : IsTrans TTPT01Row byPatientId :=
  ⟨fun _ _ _ h1 h2 => le_trans h1 h2⟩

/-- ORDER BY F002 (address-type code ascending) on `TTPT02`. -/
def byAddrType (a b : TTPT02Row) : Prop := a.F002 ≤ b.F002

instance : DecidableRel byAddrType :=
  fun a b => inferInstanceAs (Decidable (a.F002 ≤ b.F002))

/-- ORDER BY F002 (insurance number ascending) on `TTPT11`. -/
def byInsuranceNo (a b : TTPT11Row) : Prop := a.F002 ≤ b.F002

instance : DecidableRel byInsuranceNo :=
  fun a b => inferInstanceAs (Decidable (a.F002 ≤ b.F002))

/-- ORDER BY F006 DESC (treatment-start date descending) on `TTBY01`. -/
def byTreatStartDesc (a b : TTBY01Row) : Prop := dbLe b.F006 a.F006 = true

instance : DecidableRel byTreatStartDesc :=
  fun a b => inferInstanceAs (Decidable (dbLe b.F006 a.F006 = true))

/-- ORDER BY F023 DESC (registration timestamp descending) on `TTPT01`. -/
def byRegDesc (a b : TTPT01Row) : Prop := dbLe b.F023 a.F023 = true

instance : DecidableRel byRegDesc :=
  fun a b => inferInstanceAs (Decidable (dbLe b.F023 a.F023 = true))

/-! ### SQL predicate semantics -/

/-- All suffixes of a character list, longest first (the list itself and
the empty suffix included). -/
def tailsOf : List Char → List (List Char)
  | [] => [[]]
  | c :: cs => (c :: cs) :: tailsOf cs

/-- Oracle `LIKE` pattern matching (no ESCAPE clause): `%` matches any
(possibly empty) character sequence, `_` matches exactly one character,
every other pattern character matches itself, case-sensitively. -/
def likeMatch : List Char → List Char → Bool
  | [], t => t.isEmpty
  | '%' :: ps, t => (tailsOf t).any (fun s => likeMatch ps s)
  | _ :: _, [] => false
  | c :: ps, x :: ts => (c == '_' || c == x) && likeMatch ps ts

/-- The wildcard pattern assembled by `search_patients_by_name`
(line 273): `f'%{name}%'`. -/
def likePattern (name : String) : String := "%" ++ name ++ "%"

/-- Plain case-sensitive substring containment (`pat` occurs contiguously
in `s`), the spec's reading of the search predicate. -/
def strContains (s pat : String) : Bool :=
  (tailsOf s.toList).any (fun t => pat.toList.isPrefixOf t)

/-- Value of a digit character, if any. -/
def digit? (c : Char) : Option Nat :=
  if c.isDigit then some (c.toNat - 48) else none

/-- Two decimal digit characters as a number. -/
def twoDigits (c1 c2 : Char) : Option Nat := do
  let a ← digit? c1
  let b ← digit? c2
  pure (a * 10 + b)

/-- Four decimal digit characters as a number. -/
def fourDigits (c1 c2 c3 c4 : Char) : Option Nat := do
  let a ← twoDigits c1 c2
  let b ← twoDigits c3 c4
  pure (a * 100 + b)

/-- Gregorian leap-year rule. -/
def isLeapYear (y : Nat) : Bool :=
  (y % 4 == 0 && y % 100 != 0) || y % 400 == 0

/-- Number of days in a month. -/
def daysInMonth (y m : Nat) : Nat :=
  if m == 2 then (if isLeapYear y then 29 else 28)
  else if m == 4 || m == 6 || m == 9 || m == 11 then 30
  else 31

/-- Oracle `TO_DATE(s, 'YYYY-MM-DD')` as used by
`get_patients_by_date_range`: parses a strict `YYYY-MM-DD` literal into a
midnight datetime; a shape mismatch raises ORA-01861, an out-of-range
month ORA-01843 and an out-of-range day ORA-01847. -/
def to_date (s : String) : Except QueryError PyDateTime :=
  match s.toList with
  | [y1, y2, y3, y4, '-', m1, m2, '-', d1, d2] =>
    match fourDigits y1 y2 y3 y4, twoDigits m1 m2, twoDigits d1 d2 with
    | some y, some m, some d =>
      if m < 1 || m > 12 then
        .error (.ora 1843 "not a valid month")
      else if d < 1 || d > daysInMonth y m then
        .error (.ora 1847 "day of month must be between 1 and last day of month")
      else
        .ok ⟨y, m, d, 0, 0, 0⟩
    | _, _, _ => .error (.ora 1861 "literal does not match format string")
  | _ => .error (.ora 1861 "literal does not match format string")

/-- `F023 BETWEEN lo AND hi` on a DATE column value: inclusive on both
ends; a NULL (or non-date) value satisfies no comparison. -/
def valueBetween (v : DBValue) (lo hi : PyDateTime) : Bool :=
  match v with
  | .vDate d => dtLe lo d && dtLe d hi
  | _ => false

/-! ### Fetch operations (`PatientDataFetcher`) -/

/-- Column aliases of the basic-info query (lines 126-144). -/
def basicInfoColumns : List String :=
  ["患者番号", "カナ名", "カナ氏名", "漢字名", "漢字氏名", "性別", "生年月日",
   "血液型", "職種", "患者区分1", "患者区分2", "患者コメント1", "患者コメント2",
   "更新日時"]

/-- The SELECT list of the basic-info query applied to a table row. -/
def basicInfoSelect (r : TTPT01Row) : List DBValue :=
  [.vStr r.F001, .vStr r.F002, .vStr r.F003, .vStr r.F004, .vStr r.F005,
   .vStr r.F006, r.F007, .vStr r.F008, .vStr r.F010, .vStr r.F016,
   .vStr r.F017, .vStr r.F018, .vStr r.F019, r.UPDDT]

/-- Result dictionary for one basic-info row. -/
def basicInfoDict (r : TTPT01Row) : RowDict :=
  rowToDict basicInfoColumns (basicInfoSelect r)

/-- `get_patient_basic_info` (lines 116-146): single-table lookup
`WHERE F001 = :patient_id` (no ORDER BY, rows in scan order), then
`results[0] if results else None`. -/
def get_patient_basic_info (db : RapportDB) (patient_id : String) :
    Except QueryError (Option RowDict) :=
  .ok (((db.TTPT01.filter (fun r => r.F001 == patient_id)).head?).map basicInfoDict)

/-- Column aliases of the address query (lines 158-169). -/
def addressColumns : List String :=
  ["患者番号", "住所区分", "郵便番号", "住所", "電話番号", "更新日時"]

/-- The SELECT list of the address query applied to a table row. -/
def addressSelect (r : TTPT02Row) : List DBValue :=
  [.vStr r.F001, .vStr r.F002, .vStr r.F003, .vStr r.F004, .vStr r.F005,
   r.UPDDT]

/-- Result dictionary for one address row. -/
def addressDict (r : TTPT02Row) : RowDict :=
  rowToDict addressColumns (addressSelect r)

/-- `get_patient_address` (lines 148-170): `WHERE F001 = :patient_id ORDER
BY F002`. -/
def get_patient_address (db : RapportDB) (patient_id : String) :
    Except QueryError (List RowDict) :=
  .ok (((db.TTPT02.filter (fun r => r.F001 == patient_id)).insertionSort
    byAddrType).map addressDict)

/-- Column aliases of the insurance query (lines 182-197). -/
def insuranceColumns : List String :=
  ["患者番号", "保険番号", "保険者番号", "保険種別", "本人家族区分", "記号",
   "番号", "有効開始日", "有効終了日", "更新日時"]

/-- The SELECT list of the insurance query applied to a table row. -/
def insuranceSelect (r : TTPT11Row) : List DBValue :=
  [.vStr r.F001, .vStr r.F002, .vStr r.F003, .vStr r.F004, .vStr r.F005,
   .vStr r.F006, .vStr r.F007, r.F008, r.F009, r.UPDDT]

/-- Result dictionary for one insurance row. -/
def insuranceDict (r : TTPT11Row) : RowDict :=
  rowToDict insuranceColumns (insuranceSelect r)

/-- `get_patient_insurance` (lines 172-198): `WHERE F001 = :patient_id
ORDER BY F002`. -/
def get_patient_insurance (db : RapportDB) (patient_id : String) :
    Except QueryError (List RowDict) :=
  .ok (((db.TTPT11.filter (fun r => r.F001 == patient_id)).insertionSort
    byInsuranceNo).map insuranceDict)

/-- Column aliases of the disease query (lines 210-224). -/
def diseaseColumns : List String :=
  ["患者番号", "傷病名連番", "診療科", "傷病名コード", "傷病名", "診療開始日",
   "診療終了日", "転帰区分", "更新日時"]

/-- The SELECT list of the disease query applied to a table row. -/
def diseaseSelect (r : TTBY01Row) : List DBValue :=
  [.vStr r.F001, .vStr r.F002, .vStr r.F003, .vStr r.F004, .vStr r.F005,
   r.F006, r.F007, .vStr r.F008, r.UPDDT]

/-- Result dictionary for one disease row. -/
def diseaseDict (r : TTBY01Row) : RowDict :=
  rowToDict diseaseColumns (diseaseSelect r)

/-- `get_patient_diseases` (lines 200-225): `WHERE F001 = :patient_id
ORDER BY F006 DESC`. -/
def get_patient_diseases (db : RapportDB) (patient_id : String) :
    Except QueryError (List RowDict) :=
  .ok (((db.TTBY01.filter (fun r => r.F001 == patient_id)).insertionSort
    byTreatStartDesc).map diseaseDict)

/-- A value of the aggregate dictionary built by `get_patient_all_data`:
Python `None`, a single row dictionary, or a list of row dictionaries. -/
inductive PyObject where
  | pyNone : PyObject
  | pyDict (d : RowDict) : PyObject
  | pyList (l : List RowDict) : PyObject
deriving DecidableEq

/-- Lift an optional row dictionary to a `PyObject`. -/
def pyOfOption : Option RowDict → PyObject
  | none => .pyNone
  | some d => .pyDict d

/-- `get_patient_all_data` (lines 227-246): invokes the four sub-fetches
in order and assembles their results under the four fixed labels. -/
def get_patient_all_data (db : RapportDB) (patient_id : String) :
    Except QueryError (List (String × PyObject)) := do
  let basic ← get_patient_basic_info db patient_id
  let addresses ← get_patient_address db patient_id
  let insurance ← get_patient_insurance db patient_id
  let diseases ← get_patient_diseases db patient_id
  .ok [("基本情報", pyOfOption basic), ("住所情報", .pyList addresses),
       ("保険情報", .pyList insurance), ("傷病名情報", .pyList diseases)]

/-- Column aliases of the name-search query (lines 260-267). -/
def searchColumns : List String :=
  ["患者番号", "カナ名", "カナ氏名", "漢字名", "漢字氏名", "性別", "生年月日"]

/-- The SELECT list of the name-search query applied to a table row. -/
def searchSelect (r : TTPT01Row) : List DBValue :=
  [.vStr r.F001, .vStr r.F002, .vStr r.F003, .vStr r.F004, .vStr r.F005,
   .vStr r.F006, r.F007]

/-- Result dictionary for one name-search row. -/
def searchDict (r : TTPT01Row) : RowDict :=
  rowToDict searchColumns (searchSelect r)

/-- The rows passing `F003 LIKE :name` with the assembled `%name%`
pattern, in scan order. -/
def searchMatches (db : RapportDB) (name : String) : List TTPT01Row :=
  db.TTPT01.filter (fun r => likeMatch (likePattern name).toList r.F003.toList)

/-- `search_patients_by_name` (lines 248-273): `WHERE F003 LIKE :name AND
ROWNUM <= :limit ORDER BY F001`.  Oracle assigns ROWNUM before the ORDER
BY, so the first `limit` rows (in scan order) passing the LIKE filter are
kept and only those are then sorted by F001.  No validation of `limit` is
performed; the query itself cannot fail. -/
def search_patients_by_name (db : RapportDB) (name : String) (limit : Int) :
    Except QueryError (List RowDict) :=
  .ok ((((searchMatches db name).take limit.toNat).insertionSort
    byPatientId).map searchDict)

/-- Column aliases of the date-range query (lines 286-300). -/
def dateRangeColumns : List String :=
  ["患者番号", "カナ名", "カナ氏名", "漢字名", "漢字氏名", "性別", "生年月日",
   "登録日時"]

/-- The SELECT list of the date-range query applied to a table row. -/
def dateRangeSelect (r : TTPT01Row) : List DBValue :=
  [.vStr r.F001, .vStr r.F002, .vStr r.F003, .vStr r.F004, .vStr r.F005,
   .vStr r.F006, r.F007, r.F023]

/-- Result dictionary for one date-range row. -/
def dateRangeDict (r : TTPT01Row) : RowDict :=
  rowToDict dateRangeColumns (dateRangeSelect r)

/-- `get_patients_by_date_range` (lines 275-301): `WHERE F023 BETWEEN
TO_DATE(:start_date, 'YYYY-MM-DD') AND TO_DATE(:end_date, 'YYYY-MM-DD')
ORDER BY F023 DESC`.  The only failure source is `TO_DATE` on a malformed
bound; no start/end comparison is performed. -/
def get_patients_by_date_range (db : RapportDB) (start_date end_date : String) :
    Except QueryError (List RowDict) := do
  let lo ← to_date start_date
  let hi ← to_date end_date
  .ok (((db.TTPT01.filter (fun r => valueBetween r.F023 lo hi)).insertionSort
    byRegDesc).map dateRangeDict)

/-! ### The round-trip handed to the driver

`_execute_query` (lines 78-114) receives a query text and a dictionary of
bind parameters and calls `cursor.execute(query, params)`.  The following
definitions record, for each operation, exactly what is handed to the
driver. -/

/-- A bind-parameter value: the Python values bound by this script are
strings and integers. -/
inductive BindVal where
  | s (v : String) : BindVal
  | i (v : Int) : BindVal
deriving DecidableEq

/-- One `cursor.execute(query, params)` round-trip: the SQL text and the
bind-parameter dictionary. -/
structure DriverCall where
  query : String
  params : List (String × BindVal)
deriving DecidableEq

/-- SQL text of the basic-info query (lines 126-144). -/
def BASIC_INFO_SQL : String :=
  "SELECT F001 as 患者番号, F002 as カナ名, F003 as カナ氏名, F004 as 漢字名, F005 as 漢字氏名, F006 as 性別, F007 as 生年月日, F008 as 血液型, F010 as 職種, F016 as 患者区分1, F017 as 患者区分2, F018 as 患者コメント1, F019 as 患者コメント2, UPDDT as 更新日時 FROM TTPT01 WHERE F001 = :patient_id"

/-- SQL text of the address query (lines 158-169). -/
def ADDRESS_SQL : String :=
  "SELECT F001 as 患者番号, F002 as 住所区分, F003 as 郵便番号, F004 as 住所, F005 as 電話番号, UPDDT as 更新日時 FROM TTPT02 WHERE F001 = :patient_id ORDER BY F002"

/-- SQL text of the insurance query (lines 182-197). -/
def INSURANCE_SQL : String :=
  "SELECT F001 as 患者番号, F002 as 保険番号, F003 as 保険者番号, F004 as 保険種別, F005 as 本人家族区分, F006 as 記号, F007 as 番号, F008 as 有効開始日, F009 as 有効終了日, UPDDT as 更新日時 FROM TTPT11 WHERE F001 = :patient_id ORDER BY F002"

/-- SQL text of the disease query (lines 210-224). -/
def DISEASE_SQL : String :=
  "SELECT F001 as 患者番号, F002 as 傷病名連番, F003 as 診療科, F004 as 傷病名コード, F005 as 傷病名, F006 as 診療開始日, F007 as 診療終了日, F008 as 転帰区分, UPDDT as 更新日時 FROM TTBY01 WHERE F001 = :patient_id ORDER BY F006 DESC"

/-- SQL text of the name-search query (lines 259-272).  The Python source
builds it with an f-string that contains no interpolation, so the text is
the same on every call. -/
def SEARCH_SQL : String :=
  "SELECT F001 as 患者番号, F002 as カナ名, F003 as カナ氏名, F004 as 漢字名, F005 as 漢字氏名, F006 as 性別, F007 as 生年月日 FROM TTPT01 WHERE F003 LIKE :name AND ROWNUM <= :limit ORDER BY F001"

/-- SQL text of the date-range query (lines 286-300). -/
def DATE_RANGE_SQL : String :=
  "SELECT F001 as 患者番号, F002 as カナ名, F003 as カナ氏名, F004 as 漢字名, F005 as 漢字氏名, F006 as 性別, F007 as 生年月日, F023 as 登録日時 FROM TTPT01 WHERE F023 BETWEEN TO_DATE(:start_date, 'YYYY-MM-DD') AND TO_DATE(:end_date, 'YYYY-MM-DD') ORDER BY F023 DESC"

/-- The round-trip issued by `get_patient_basic_info` (line 145). -/
def basicInfoCall (patient_id : String) : DriverCall :=
  ⟨BASIC_INFO_SQL, [("patient_id", .s patient_id)]⟩

/-- The round-trip issued by `get_patient_address` (line 170). -/
def addressCall (patient_id : String) : DriverCall :=
  ⟨ADDRESS_SQL, [("patient_id", .s patient_id)]⟩

/-- The round-trip issued by `get_patient_insurance` (line 198). -/
def insuranceCall (patient_id : String) : DriverCall :=
  ⟨INSURANCE_SQL, [("patient_id", .s patient_id)]⟩

/-- The round-trip issued by `get_patient_diseases` (line 225). -/
def diseaseCall (patient_id : String) : DriverCall :=
  ⟨DISEASE_SQL, [("patient_id", .s patient_id)]⟩

/-- The round-trip issued by `search_patients_by_name` (line 273): the
assembled wildcard pattern `f'%{name}%'` travels as the bound parameter
`name`, and the limit as the bound parameter `limit`. -/
def searchCall (name : String) (limit : Int) : DriverCall :=
  ⟨SEARCH_SQL, [("name", .s (likePattern name)), ("limit", .i limit)]⟩

/-- The round-trip issued by `get_patients_by_date_range` (line 301). -/
def dateRangeCall (start_date end_date : String) : DriverCall :=
  ⟨DATE_RANGE_SQL,
   [("start_date", .s start_date), ("end_date", .s end_date)]⟩

/-! ### Export (`export_to_json`) -/

/-- The state of the destination path: `none` when no file exists there,
`some s` when a file with content `s` does. -/
structure FileState where
  contents : Option String
deriving DecidableEq

/-- Error raised on a failed write (permission denied, disk full, invalid
path). -/
inductive IOFailure where
  | ioError (msg : String) : IOFailure
deriving DecidableEq

/-- `export_to_json` (lines 304-318) with the destination file modelled
explicitly.  `doc` is the serialized document
`json.dumps(data, ensure_ascii=False, indent=2)`; `failAt` injects an
OS-level write failure after `failAt` characters have reached the file
(`none` = the write succeeds).  `open(output_file, 'w')` truncates the
destination before anything is written; the document is then streamed in
place; on failure the exception is logged and re-raised (the partial
content stays). -/
def export_to_json (doc : String) (failAt : Option Nat) (_fs : FileState) :
    FileState × Option IOFailure :=
  match failAt with
  | none => (⟨some doc⟩, none)
  | some k =>
    if k < doc.length then
      (⟨some (doc.take k)⟩, some (.ioError "write failure"))
    else
      (⟨some doc⟩, none)

/-! ### Concrete fixtures used by witnesses and counterexamples -/

/-- A date-typed driver value at midnight. -/
def dtv (y m d : Nat) : DBValue := .vDate ⟨y, m, d, 0, 0, 0⟩

/-- A generic basic-info row used to build fixtures. -/
def baseRow : TTPT01Row :=
  { F001 := "0000000000", F002 := "ヤマダ", F003 := "ヤマダ タロウ",
    F004 := "山田", F005 := "山田 太郎", F006 := "1",
    F007 := dtv 1980 1 15, F008 := "A", F010 := "01",
    F016 := "0", F017 := "0", F018 := "", F019 := "",
    F023 := .vDate ⟨2024, 6, 15, 9, 30, 0⟩,
    UPDDT := .vDate ⟨2024, 6, 15, 9, 30, 1⟩ }

/-- Fixture patient `0000000001`. -/
def sampleRow : TTPT01Row := { baseRow with F001 := "0000000001" }

/-- Fixture address row for patient `0000000001`. -/
def sampleAddr : TTPT02Row :=
  { F001 := "0000000001", F002 := "1", F003 := "1000001",
    F004 := "東京都千代田区1-1", F005 := "03-0000-0000",
    UPDDT := dtv 2024 5 1 }

/-- Fixture insurance row for patient `0000000001`. -/
def sampleIns : TTPT11Row :=
  { F001 := "0000000001", F002 := "01", F003 := "138057", F004 := "1",
    F005 := "1", F006 := "あ", F007 := "12345",
    F008 := dtv 2024 4 1, F009 := dtv 2025 3 31, UPDDT := dtv 2024 4 1 }

/-- Fixture disease row for patient `0000000001`. -/
def sampleDis : TTBY01Row :=
  { F001 := "0000000001", F002 := "1", F003 := "01", F004 := "J00",
    F005 := "急性鼻咽頭炎", F006 := dtv 2024 6 1, F007 := .vNull,
    F008 := "1", UPDDT := dtv 2024 6 1 }

/-- Fixture database with one patient and one row in each satellite
table. -/
def sampleDb : RapportDB := ⟨[sampleRow], [sampleAddr], [sampleIns], [sampleDis]⟩

/-- An empty database. -/
def noneDb : RapportDB := ⟨[], [], [], []⟩

/-- A second basic-info row sharing identifier `0000000001` (violating the
upstream uniqueness assumption). -/
def dupRowB : TTPT01Row :=
  { baseRow with F001 := "0000000001", F003 := "ヤマダ ジロウ" }

/-- Database holding duplicate basic-info rows for one identifier. -/
def dupDb : RapportDB := ⟨[sampleRow, dupRowB], [], [], []⟩

/-- A basic-info row with the given identifier and phonetic name. -/
def ymRow (id kana : String) : TTPT01Row :=
  { baseRow with F001 := id, F003 := kana }

/-- Fixture with seven rows whose phonetic name contains `YAMADA` (in
scrambled identifier order) and one row that does not. -/
def db7 : RapportDB :=
  ⟨[ymRow "0000000004" "YAMADA HANAKO", ymRow "0000000001" "YAMADA TARO",
    ymRow "0000000007" "YAMADA JIRO", ymRow "0000000003" "YAMADA SABURO",
    ymRow "0000000008" "SUZUKI ICHIRO", ymRow "0000000006" "YAMADA SHIRO",
    ymRow "0000000002" "YAMADA GORO", ymRow "0000000005" "YAMADA ROKURO"],
   [], [], []⟩

/-- A row whose phonetic name is the two characters `AB`. -/
def cexRow : TTPT01Row := { baseRow with F001 := "0000000099", F003 := "AB" }

/-- Database holding only `cexRow`. -/
def cexDb : RapportDB := ⟨[cexRow], [], [], []⟩

/-- Database with one patient registered 2024-06-15. -/
def dbOne : RapportDB := ⟨[{ baseRow with F001 := "0000000010" }], [], [], []⟩

/-! ## Claims -/

/-! ### C1 — disconnect idempotence -/

/-- Claim C1 counterexample: open a connection, then call `disconnect`
twice in a row.  The first call closes the driver connection but leaves
`self.connection` set, so the second call invokes `close()` on the
already-closed driver connection, which raises `InterfaceError: not
connected` — it is not a no-op and does not return normally. -/
theorem disconnect_twice_raises_cex :
    ((RapportDBConnection.init "user" "pass" "host:1521/RAPPORT").connectOk.disconnect).bind
        RapportDBConnection.disconnect =
      .error (.interfaceError "not connected") := rfl

/-- Claim C1 (amended): `disconnect` on a never-opened handle
(`self.connection is None`) is a no-op that returns normally; but after a
successful `disconnect` the `connection` attribute still holds the closed
driver connection, so a second `disconnect` calls the driver `close()`
again and raises — `disconnect` is not idempotent after a successful
close. -/
theorem disconnect_noop_only_when_never_opened (s : RapportDBConnection) :
    (s.connection = none → s.disconnect = .ok s) ∧
    (∀ c, s.connection = some c → c.isOpen = true →
      s.disconnect = .ok { s with connection := some ⟨false⟩ } ∧
      RapportDBConnection.disconnect { s with connection := some ⟨false⟩ } =
        .error (.interfaceError "not connected")) := by
  constructor
  · intro h
    simp [RapportDBConnection.disconnect, h]
  · intro c hc hopen
    constructor
    · simp [RapportDBConnection.disconnect, hc, OracleConnection.close, hopen,
        Bind.bind, Except.bind]
    · simp [RapportDBConnection.disconnect, OracleConnection.close,
        Bind.bind, Except.bind]

/-- Witness for the amended C1 theorem at concrete states: a never-opened
handle and a just-opened handle. -/
theorem disconnect_noop_only_when_never_opened_witness :
    ((RapportDBConnection.init "u" "p" "d").disconnect =
      .ok (RapportDBConnection.init "u" "p" "d")) ∧
    ((RapportDBConnection.init "u" "p" "d").connectOk.disconnect =
      .ok { (RapportDBConnection.init "u" "p" "d").connectOk with
              connection := some ⟨false⟩ } ∧
      RapportDBConnection.disconnect
          { (RapportDBConnection.init "u" "p" "d").connectOk with
              connection := some ⟨false⟩ } =
        .error (.interfaceError "not connected")) :=
  ⟨(disconnect_noop_only_when_never_opened (RapportDBConnection.init "u" "p" "d")).1 rfl,
   (disconnect_noop_only_when_never_opened
      (RapportDBConnection.init "u" "p" "d").connectOk).2 ⟨true⟩ rfl rfl⟩

/-! ### C2 — all-data aggregation -/

/-- Claim C2: `get_patient_all_data(id)` returns exactly the dictionary
obtained by invoking the four sub-fetches independently and placing their
results under the four fixed labels, with no other coupling between
them. -/
theorem all_data_assembles_independent_subfetches
    (db : RapportDB) (patient_id : String) (b : Option RowDict)
    (a i d : List RowDict) :
    get_patient_basic_info db patient_id = .ok b →
    get_patient_address db patient_id = .ok a →
    get_patient_insurance db patient_id = .ok i →
    get_patient_diseases db patient_id = .ok d →
    get_patient_all_data db patient_id =
      .ok [("基本情報", pyOfOption b), ("住所情報", .pyList a),
           ("保険情報", .pyList i), ("傷病名情報", .pyList d)] := by
  intro h1 h2 h3 h4
  unfold get_patient_all_data
  rw [h1, h2, h3, h4]
  rfl

/-- Witness for C2 on the sample database. -/
theorem all_data_assembles_independent_subfetches_witness :
    get_patient_all_data sampleDb "0000000001" =
      .ok [("基本情報", pyOfOption (some (basicInfoDict sampleRow))),
           ("住所情報", .pyList [addressDict sampleAddr]),
           ("保険情報", .pyList [insuranceDict sampleIns]),
           ("傷病名情報", .pyList [diseaseDict sampleDis])] :=
  all_data_assembles_independent_subfetches sampleDb "0000000001"
    (some (basicInfoDict sampleRow)) [addressDict sampleAddr]
    [insuranceDict sampleIns] [diseaseDict sampleDis] rfl rfl rfl rfl

/-! ### C3 — date-range validation -/

/-- Chronological order on datetimes is transitive. -/
theorem dtLe_trans {a b c : PyDateTime} (h1 : dtLe a b = true)
    (h2 : dtLe b c = true) : dtLe a c = true := by
  simp only [dtLe, decide_eq_true_eq] at *
  exact le_trans h1 h2

/-- Claim C3 counterexample: both bounds are well-formed `YYYY-MM-DD`
strings with `start_date > end_date`, and the database even holds a
patient registered inside the (forward) range; the call returns an empty
list normally instead of raising a `QueryError` — no validation of the
bound order is performed. -/
theorem date_range_reversed_returns_empty_cex :
    get_patients_by_date_range dbOne "2024-12-31" "2024-01-01" = .ok [] := rfl

/-- Claim C3 (amended): `get_patients_by_date_range` raises only when a
bound fails Oracle `TO_DATE` parsing (the engine error propagates); with
two well-formed bounds in reversed order it silently returns an empty
list, because `BETWEEN` with a lower bound above the upper bound matches
no row. -/
theorem date_range_validation_amended (db : RapportDB) (s e : String) :
    (isError (to_date s) = true ∨ isError (to_date e) = true →
      isError (get_patients_by_date_range db s e) = true) ∧
    (∀ lo hi, to_date s = .ok lo → to_date e = .ok hi → dtLe lo hi = false →
      get_patients_by_date_range db s e = .ok []) := by
  constructor
  · intro h
    unfold get_patients_by_date_range
    cases hs : to_date s with
    | error q => rfl
    | ok lo =>
      cases he : to_date e with
      | error q => rfl
      | ok hi =>
        rw [hs, he] at h
        simp [isError] at h
  · intro lo hi hs he hlh
    have hf : db.TTPT01.filter (fun r => valueBetween r.F023 lo hi) = [] := by
      rw [List.filter_eq_nil_iff]
      intro r _
      cases r.F023 with
      | vDate d =>
        simp only [valueBetween, Bool.and_eq_true, not_and]
        intro h1 h2
        have hcon := dtLe_trans h1 h2
        rw [hlh] at hcon
        exact Bool.noConfusion hcon
      | vNull => exact Bool.false_ne_true
      | vStr a => exact Bool.false_ne_true
      | vInt a => exact Bool.false_ne_true
    unfold get_patients_by_date_range
    rw [hs, he]
    show Except.ok
        (((db.TTPT01.filter (fun r => valueBetween r.F023 lo hi)).insertionSort
          byRegDesc).map dateRangeDict) = Except.ok []
    rw [hf]
    rfl

/-- Witness for the amended C3 theorem: a malformed month raises, and a
well-formed reversed range yields an empty list without error. -/
theorem date_range_validation_amended_witness :
    isError (get_patients_by_date_range noneDb "2024-13-01" "2024-01-01") = true ∧
    get_patients_by_date_range noneDb "2025-02-02" "2025-01-01" = .ok [] :=
  ⟨(date_range_validation_amended noneDb "2024-13-01" "2024-01-01").1 (.inl rfl),
   (date_range_validation_amended noneDb "2025-02-02" "2025-01-01").2
     ⟨2025, 2, 2, 0, 0, 0⟩ ⟨2025, 1, 1, 0, 0, 0⟩ rfl rfl rfl⟩

/-! ### C4 — search limit validation -/

/-- Claim C4 counterexample: `limit = 0` (non-positive) on a database with
a matching row returns an empty list normally instead of raising a
`QueryError`. -/
theorem search_nonpositive_limit_no_error_cex :
    search_patients_by_name db7 "YAMADA" 0 = .ok [] := rfl

/-- Claim C4 (amended): `search_patients_by_name` performs no validation
of `limit` and never raises for any pattern or limit; a non-positive limit
simply yields an empty result (the `ROWNUM <= :limit` predicate admits no
row), and there is no upper ceiling — every limit is passed to the driver
as a bound parameter and used as-is. -/
theorem search_limit_unvalidated (db : RapportDB) (name : String)
    (limit : Int) :
    isError (search_patients_by_name db name limit) = false ∧
    (limit ≤ 0 → search_patients_by_name db name limit = .ok []) := by
  constructor
  · rfl
  · intro h
    unfold search_patients_by_name
    rw [Int.toNat_of_nonpos h]
    rfl

/-- Witness for the amended C4 theorem at a negative limit on the sample
database. -/
theorem search_limit_unvalidated_witness :
    isError (search_patients_by_name sampleDb "ヤマダ" (-3)) = false ∧
    search_patients_by_name sampleDb "ヤマダ" (-3) = .ok [] :=
  ⟨(search_limit_unvalidated sampleDb "ヤマダ" (-3)).1,
   (search_limit_unvalidated sampleDb "ヤマダ" (-3)).2 (by decide)⟩

/-! ### C5 — unknown identifier behavior -/

/-- Claim C5: when the database holds no row matching a patient
identifier, `get_patient_basic_info` returns `None` and the three list
fetches return empty lists; none of them raises. -/
theorem unknown_patient_absent_not_error (db : RapportDB) (pid : String) :
    (db.TTPT01.filter (fun r => r.F001 == pid) = [] →
      get_patient_basic_info db pid = .ok none) ∧
    (db.TTPT02.filter (fun r => r.F001 == pid) = [] →
      get_patient_address db pid = .ok []) ∧
    (db.TTPT11.filter (fun r => r.F001 == pid) = [] →
      get_patient_insurance db pid = .ok []) ∧
    (db.TTBY01.filter (fun r => r.F001 == pid) = [] →
      get_patient_diseases db pid = .ok []) := by
  refine ⟨fun h => ?_, fun h => ?_, fun h => ?_, fun h => ?_⟩ <;>
    · first
      | (unfold get_patient_basic_info; rw [h]; rfl)
      | (unfold get_patient_address; rw [h]; rfl)
      | (unfold get_patient_insurance; rw [h]; rfl)
      | (unfold get_patient_diseases; rw [h]; rfl)

/-- Witness for C5 on the empty database and an identifier that matches no
row. -/
theorem unknown_patient_absent_not_error_witness :
    get_patient_basic_info noneDb "9999999999" = .ok none ∧
    get_patient_address noneDb "9999999999" = .ok [] ∧
    get_patient_insurance noneDb "9999999999" = .ok [] ∧
    get_patient_diseases noneDb "9999999999" = .ok [] :=
  ⟨(unknown_patient_absent_not_error noneDb "9999999999").1 rfl,
   (unknown_patient_absent_not_error noneDb "9999999999").2.1 rfl,
   (unknown_patient_absent_not_error noneDb "9999999999").2.2.1 rfl,
   (unknown_patient_absent_not_error noneDb "9999999999").2.2.2 rfl⟩

/-! ### C6 — date conversion at the boundary -/

/-- Whether some value of a result dictionary is a native datetime. -/
def rowDictHasDate (d : RowDict) : Bool :=
  d.any (fun p => (p.2).isDate)

/-- Whether some value of some result dictionary in a list is a native
datetime. -/
def rowsHaveDate (rows : List RowDict) : Bool :=
  rows.any rowDictHasDate

/-- The conversion step never leaves a datetime behind. -/
theorem isDate_convertValue (v : DBValue) : (convertValue v).isDate = false := by
  cases v <;> rfl

/-- No dictionary built by the row-conversion loop holds a native
datetime. -/
theorem rowToDict_hasDate (cols : List String) (vals : List DBValue) :
    rowDictHasDate (rowToDict cols vals) = false := by
  simp only [rowDictHasDate, rowToDict]
  rw [List.any_eq_false]
  intro p hp
  obtain ⟨v, _, hv⟩ := List.mem_map.mp (List.of_mem_zip hp).2
  rw [← hv, isDate_convertValue]
  exact Bool.false_ne_true

/-- A list of dictionaries each built by the conversion loop holds no
native datetime. -/
theorem rowsHaveDate_map {α : Type} (f : α → RowDict)
    (hf : ∀ r, rowDictHasDate (f r) = false) (l : List α) :
    rowsHaveDate (l.map f) = false := by
  simp only [rowsHaveDate]
  rw [List.any_eq_false]
  intro d hd
  obtain ⟨r, _, hr⟩ := List.mem_map.mp hd
  rw [← hr, hf r]
  exact Bool.false_ne_true

/-- Claim C6: every row returned by any fetch operation has every
date/timestamp value already converted to ISO-8601 text — no native
datetime object occurs in any returned row. -/
theorem no_native_dates_in_results (db : RapportDB)
    (pid name sd ed : String) (limit : Int) :
    (∀ d, get_patient_basic_info db pid = .ok (some d) →
      rowDictHasDate d = false) ∧
    (∀ rows, get_patient_address db pid = .ok rows →
      rowsHaveDate rows = false) ∧
    (∀ rows, get_patient_insurance db pid = .ok rows →
      rowsHaveDate rows = false) ∧
    (∀ rows, get_patient_diseases db pid = .ok rows →
      rowsHaveDate rows = false) ∧
    (∀ rows, search_patients_by_name db name limit = .ok rows →
      rowsHaveDate rows = false) ∧
    (∀ rows, get_patients_by_date_range db sd ed = .ok rows →
      rowsHaveDate rows = false) := by
  refine ⟨?_, ?_, ?_, ?_, ?_, ?_⟩
  · intro d h
    injection h with h'
    obtain ⟨r, _, hr⟩ := Option.map_eq_some'.mp h'
    rw [← hr]
    exact rowToDict_hasDate basicInfoColumns (basicInfoSelect r)
  · intro rows h
    injection h with h'
    rw [← h']
    exact rowsHaveDate_map addressDict
      (fun r => rowToDict_hasDate addressColumns (addressSelect r)) _
  · intro rows h
    injection h with h'
    rw [← h']
    exact rowsHaveDate_map insuranceDict
      (fun r => rowToDict_hasDate insuranceColumns (insuranceSelect r)) _
  · intro rows h
    injection h with h'
    rw [← h']
    exact rowsHaveDate_map diseaseDict
      (fun r => rowToDict_hasDate diseaseColumns (diseaseSelect r)) _
  · intro rows h
    injection h with h'
    rw [← h']
    exact rowsHaveDate_map searchDict
      (fun r => rowToDict_hasDate searchColumns (searchSelect r)) _
  · intro rows h
    unfold get_patients_by_date_range at h
    cases hs : to_date sd with
    | error q => rw [hs] at h; exact Except.noConfusion h
    | ok lo =>
      cases he : to_date ed with
      | error q => rw [hs, he] at h; exact Except.noConfusion h
      | ok hi =>
        rw [hs, he] at h
        have h' : (((db.TTPT01.filter
            (fun r => valueBetween r.F023 lo hi)).insertionSort
              byRegDesc).map dateRangeDict) = rows := by
          injection h with h'
        rw [← h']
        exact rowsHaveDate_map dateRangeDict
          (fun r => rowToDict_hasDate dateRangeColumns (dateRangeSelect r)) _

/-- Witness for C6 on the sample database, whose table rows do contain
native datetime values in their date columns. -/
theorem no_native_dates_in_results_witness :
    rowDictHasDate (basicInfoDict sampleRow) = false ∧
    rowsHaveDate [addressDict sampleAddr] = false ∧
    rowsHaveDate [diseaseDict sampleDis] = false :=
  ⟨(no_native_dates_in_results sampleDb "0000000001" "ヤマダ" "2024-01-01"
      "2024-12-31" 100).1 (basicInfoDict sampleRow) rfl,
   (no_native_dates_in_results sampleDb "0000000001" "ヤマダ" "2024-01-01"
      "2024-12-31" 100).2.1 [addressDict sampleAddr] rfl,
   (no_native_dates_in_results sampleDb "0000000001" "ヤマダ" "2024-01-01"
      "2024-12-31" 100).2.2.2.1 [diseaseDict sampleDis] rfl⟩

/-! ### C7 — search result shape -/

/-- Order on result dictionaries induced by their patient-identifier
entry. -/
def dictPidLe (d1 d2 : RowDict) : Prop :=
  ∀ s1 s2 : String, List.lookup "患者番号" d1 = some (.vStr s1) →
    List.lookup "患者番号" d2 = some (.vStr s2) → s1 ≤ s2

/-- The patient-identifier entry of a search result dictionary. -/
theorem searchDict_lookup_pid (r : TTPT01Row) :
    List.lookup "患者番号" (searchDict r) = some (.vStr r.F001) := rfl

/-- Claim C7 counterexample: the pattern `A_` is not contained as a
substring in the phonetic name `AB`, yet the row is returned, because the
assembled `%A_%` travels through SQL `LIKE`, where `_` is a single-character
wildcard.  "Contains the pattern as a case-sensitive substring" therefore
fails for patterns holding LIKE wildcard characters. -/
theorem search_wildcard_pattern_cex :
    search_patients_by_name cexDb "A_" 5 = .ok [searchDict cexRow] ∧
    strContains cexRow.F003 "A_" = false := ⟨rfl, rfl⟩

/-- Claim C7 (amended): for every pattern and limit, the returned list has
at most `limit` rows, every returned row's phonetic full-name field
matches the SQL LIKE pattern `%name%` (for wildcard-free patterns this is
case-sensitive substring containment; `%` and `_` inside the pattern act
as wildcards), the rows are ordered by patient identifier ascending, and
when more than `limit` rows match exactly `limit` rows are returned. -/
theorem search_results_like_bounded_sorted (db : RapportDB) (name : String)
    (limit : Int) (rows : List RowDict) :
    search_patients_by_name db name limit = .ok rows →
      rows.length ≤ limit.toNat ∧
      (∀ d ∈ rows, ∃ r, d = searchDict r ∧
        likeMatch (likePattern name).toList r.F003.toList = true) ∧
      rows.Pairwise dictPidLe ∧
      (limit.toNat < (searchMatches db name).length →
        rows.length = limit.toNat) := by
  intro h
  have hrows : rows = (((searchMatches db name).take
      limit.toNat).insertionSort byPatientId).map searchDict := by
    injection h with h'
    exact h'.symm
  subst hrows
  refine ⟨?_, ?_, ?_, ?_⟩
  · rw [List.length_map, List.length_insertionSort, List.length_take]
    exact min_le_left _ _
  · intro d hd
    obtain ⟨r, hr, hdr⟩ := List.mem_map.mp hd
    refine ⟨r, hdr.symm, ?_⟩
    have hr2 : r ∈ searchMatches db name :=
      List.take_subset _ _ ((List.mem_insertionSort byPatientId).mp hr)
    exact (List.mem_filter.mp hr2).2
  · rw [List.pairwise_map]
    refine (List.sorted_insertionSort byPatientId
      ((searchMatches db name).take limit.toNat)).imp ?_
    intro a b hab s1 s2 h1 h2
    rw [searchDict_lookup_pid] at h1 h2
    simp only [Option.some.injEq, DBValue.vStr.injEq] at h1 h2
    rw [← h1, ← h2]
    exact hab
  · intro hlt
    rw [List.length_map, List.length_insertionSort, List.length_take]
    omega

/-- The rows produced by `search_patients_by_name db7 "YAMADA" 5`. -/
def rows7 : List RowDict :=
  (((searchMatches db7 "YAMADA").take (Int.toNat 5)).insertionSort
    byPatientId).map searchDict

/-- Witness for the amended C7 theorem: the fixture holds seven matching
rows, the search with limit 5 returns exactly five. -/
theorem search_results_like_bounded_sorted_witness :
    rows7.length = Int.toNat 5 ∧ rows7.Pairwise dictPidLe :=
  ⟨(search_results_like_bounded_sorted db7 "YAMADA" 5 rows7 rfl).2.2.2
     (by decide),
   (search_results_like_bounded_sorted db7 "YAMADA" 5 rows7 rfl).2.2.1⟩

/-! ### C8 — export failure atomicity -/

/-- Claim C8 counterexample: a write failure after one character leaves
the destination holding a partial prefix of the document — neither the
complete serialized document nor the previous content.  The exception is
raised, but the destination is changed. -/
theorem export_partial_write_cex :
    ((export_to_json "ab" (some 1) ⟨some "old"⟩).2).isSome = true ∧
    (export_to_json "ab" (some 1) ⟨some "old"⟩).1.contents ≠ some "ab" ∧
    (export_to_json "ab" (some 1) ⟨some "old"⟩).1.contents ≠ some "old" := by
  refine ⟨rfl, ?_, ?_⟩ <;> decide

/-- Claim C8 (amended): `export_to_json` re-raises the `IOError` on a
write failure, but it writes in place: `open(..., 'w')` truncates the
destination up front, and a failure after `k` characters leaves exactly
the first `k` characters of the document behind — there is no
temporary-file/atomic-replace step, so the destination can end up
partially written. -/
theorem export_write_behavior (doc : String) (k : Nat)
    (fs1 fs2 : FileState) :
    export_to_json doc none fs1 = (⟨some doc⟩, none) ∧
    (k < doc.length →
      export_to_json doc (some k) fs2 =
        (⟨some (doc.take k)⟩, some (.ioError "write failure"))) := by
  constructor
  · rfl
  · intro h
    simp [export_to_json, h]

/-- Witness for the amended C8 theorem at a concrete document and failure
point. -/
theorem export_write_behavior_witness :
    export_to_json "ab" none ⟨some "old"⟩ = (⟨some "ab"⟩, none) ∧
    export_to_json "ab" (some 1) ⟨some "old"⟩ =
      (⟨some ("ab".take 1)⟩, some (.ioError "write failure")) :=
  ⟨(export_write_behavior "ab" 1 ⟨some "old"⟩ ⟨some "old"⟩).1,
   (export_write_behavior "ab" 1 ⟨some "old"⟩ ⟨some "old"⟩).2 (by decide)⟩

/-! ### C9 — parameterization -/

/-- Claim C9: for any two runs of any fetch operation, the SQL text handed
to the driver is identical — user-supplied values reach the driver only in
the bind-parameter dictionary, and in particular the assembled wildcard
pattern `%name%` travels as the bound parameter `name`, never spliced into
the query source. -/
theorem queries_fixed_text_bound_params
    (p1 p2 n1 n2 s1 s2 e1 e2 : String) (l1 l2 : Int) :
    (basicInfoCall p1).query = (basicInfoCall p2).query ∧
    (addressCall p1).query = (addressCall p2).query ∧
    (insuranceCall p1).query = (insuranceCall p2).query ∧
    (diseaseCall p1).query = (diseaseCall p2).query ∧
    (searchCall n1 l1).query = (searchCall n2 l2).query ∧
    (dateRangeCall s1 e1).query = (dateRangeCall s2 e2).query ∧
    (searchCall n1 l1).params =
      [("name", .s ("%" ++ n1 ++ "%")), ("limit", .i l1)] ∧
    (basicInfoCall p1).params = [("patient_id", .s p1)] ∧
    (dateRangeCall s1 e1).params =
      [("start_date", .s s1), ("end_date", .s e1)] :=
  ⟨rfl, rfl, rfl, rfl, rfl, rfl, rfl, rfl, rfl⟩

/-! ### C10 — duplicate basic-info rows -/

/-- Claim C10: when the basic-info query yields more than one row for an
identifier, `get_patient_basic_info` silently returns the first row of the
result set (in scan order) and discards the rest; it never raises on
duplicates. -/
theorem basic_info_first_row_on_duplicates (db : RapportDB) (pid : String)
    (r1 r2 : TTPT01Row) (rest : List TTPT01Row) :
    db.TTPT01.filter (fun r => r.F001 == pid) = r1 :: r2 :: rest →
    get_patient_basic_info db pid = .ok (some (basicInfoDict r1)) := by
  intro h
  unfold get_patient_basic_info
  rw [h]
  rfl

/-- Witness for C10 on the database holding two rows with identifier
`0000000001`. -/
theorem basic_info_first_row_on_duplicates_witness :
    get_patient_basic_info dupDb "0000000001" =
      .ok (some (basicInfoDict sampleRow)) :=
  basic_info_first_row_on_duplicates dupDb "0000000001" sampleRow dupRowB
    [] rfl

end Rapport
